import Mathlib

/-!
Shallow embedding of `src/EagerMOT/augmentation/augmentation_base.py`.

The file under verification is configuration/bootstrap scaffolding: an abstract
base class `AugmentationMethod` with interactive console prompts, a no-op child
class `DoNotAugment`, and a string-keyed factory `create_child_class_object`.

Modelling conventions:
* Python floats that are only parsed, compared and stored (never arithmetically
  combined) are modelled as rationals `ℚ`; a console line fed to `float(input())`
  is modelled by its parse outcome (`NumInput`).
* Python dicts of per-class thresholds are association lists `List (Int × ℚ)`;
  `d[k]` is `List.lookup` (with `none` standing for `KeyError`).
* Console interaction is modelled by passing the stream of user inputs
  explicitly; a retry loop becomes structural recursion on the remaining
  inputs, returning the printed retry messages together with the result
  (`none` = the loop never returns, i.e. the input stream is exhausted).
* File writes are modelled as the list of (path, JSON value) pairs written.
* Python `None` returned from a function is `Option.none`.
-/

namespace AugmentationBase

/-- Per-class threshold table (`eagermot_thresholds: dict`), keyed by class id. -/
abbrev ThresholdDict := List (Int × ℚ)

/-- The outcome of feeding one console line to `float(input())` in
`get_bias_ratio_input`:
* `num q` — parsing succeeded with the finite value `q`;
* `nonfinite` — parsing succeeded with `inf`, `-inf` or `nan`, so the chained
  comparison `0 <= bias <= 1` is false and the loop retries;
* `malformed` — `float` raised `ValueError`. -/
inductive NumInput where
  | num (q : ℚ)
  | nonfinite
  | malformed
  deriving DecidableEq

/-- Whether one parsed console line makes `get_bias_ratio_input` return. -/
def validBias : NumInput → Bool
  | NumInput.num q => decide (0 ≤ q ∧ q ≤ 1)
  | NumInput.nonfinite => false
  | NumInput.malformed => false

/-- `AugmentationMethod.get_bias_ratio_input` (lines 91-108): loop reading a
float until one lies in `[0, 1]`; returns the printed retry messages and the
returned value (`none` when the input stream runs out before a valid value). -/
def get_bias_ratio_input : List NumInput → List String × Option ℚ
  | [] => ([], none)
  | NumInput.num q :: rest =>
      if 0 ≤ q ∧ q ≤ 1 then ([], some q)
      else
        let r := get_bias_ratio_input rest
        ("Bias ratio outside of permitted range" :: r.1, r.2)
  | NumInput.nonfinite :: rest =>
      let r := get_bias_ratio_input rest
      ("Bias ratio outside of permitted range" :: r.1, r.2)
  | NumInput.malformed :: rest =>
      let r := get_bias_ratio_input rest
      ("Please print a number." :: r.1, r.2)

/-- The affirmative answers accepted at the folder-selection prompt
(line 78 of the source). -/
def folderYesChoices : List String :=
  ["y", "Y", "yes", "YES", "Yes", "1", "default", "DEFAULT", "Default"]

/-- The default embeddings folder (`MOUNT_PATH + "/Embeddings/" + self.name + "/"`). -/
def default_path (MOUNT_PATH name : String) : String :=
  MOUNT_PATH ++ "/Embeddings/" ++ name ++ "/"

/-- The `while True` loop of `get_source_folder_address` (lines 80-87): read a
path, retry while `MOUNT_PATH + userpath` does not exist on the filesystem
`fs` (modelled as the list of existing paths). Returns the printed error
messages and the accepted path. -/
def folderRetryLoop (MOUNT_PATH : String) (fs : List String) :
    List String → List String × Option String
  | [] => ([], none)
  | userpath :: rest =>
      let custom_folder_addr := MOUNT_PATH ++ userpath
      if fs.contains custom_folder_addr then ([], some custom_folder_addr)
      else
        let r := folderRetryLoop MOUNT_PATH fs rest
        ("Error: folder does not exist. Input again" :: r.1, r.2)

/-- `AugmentationMethod.get_source_folder_address` (lines 73-89): if the answer
to the default-folder prompt is affirmative, return the default path without
any existence check; otherwise loop until an entered path exists. -/
def get_source_folder_address (MOUNT_PATH name : String) (fs : List String)
    (savechoice : String) (userpaths : List String) : List String × Option String :=
  if folderYesChoices.contains savechoice then ([], some (default_path MOUNT_PATH name))
  else folderRetryLoop MOUNT_PATH fs userpaths

/-- The `default_settings` entries used by `AugmentationMethod.__init__`.
The table itself lives in `augmentation/augmentation_params.py`, which is not
part of the provided source, so its concrete values are unknown; instances are
passed explicitly. -/
structure DefaultSettings where
  folder : String
  bias_ratio : ℚ
  deriving DecidableEq

/-- The console inputs consumed by an interactive construction. -/
structure Console where
  savechoice : String
  userpaths : List String
  bias_inputs : List NumInput
  deriving DecidableEq

/-- The data members an `AugmentationMethod` instance holds after `__init__`. -/
structure AugmentationMethodState where
  name : String
  map_ratio : ThresholdDict
  folder : String
  bias_ratio : ℚ
  deriving DecidableEq

/-- `AugmentationMethod.__init__` (lines 51-59). The dynamically dispatched
`self.setup_map_ratio` is passed as the function `setup_map_ratio` (each child
class supplies its own). With `automatic_init` the folder and bias ratio come
from `default_settings`; otherwise from the two interactive prompts. `none`
means the interactive prompts never returned (input exhausted). -/
def AugmentationMethod.init (method_name : String) (automatic_init : Bool)
    (eagermot_thresholds : ThresholdDict)
    (setup_map_ratio : ThresholdDict → ThresholdDict)
    (ds : DefaultSettings) (MOUNT_PATH : String) (fs : List String)
    (con : Console) : Option AugmentationMethodState :=
  let mr := setup_map_ratio eagermot_thresholds
  if automatic_init then
    some { name := method_name, map_ratio := mr, folder := ds.folder,
           bias_ratio := ds.bias_ratio }
  else
    match (get_source_folder_address MOUNT_PATH method_name fs
             con.savechoice con.userpaths).2 with
    | none => none
    | some folder =>
        match (get_bias_ratio_input con.bias_inputs).2 with
        | none => none
        | some bias =>
            some { name := method_name, map_ratio := mr, folder := folder,
                   bias_ratio := bias }

/-- The value returned by a `get_name` accessor: the base class returns the
name string, `DoNotAugment` overrides it to return the boolean `False`. -/
inductive NameResult where
  | str (s : String)
  | bool (b : Bool)
  deriving DecidableEq

/-- `AugmentationMethod.get_name` (lines 61-62). -/
def AugmentationMethod.get_name (m : AugmentationMethodState) : NameResult :=
  NameResult.str m.name

/-- `AugmentationMethod.get_folder` (lines 64-65). -/
def AugmentationMethod.get_folder (m : AugmentationMethodState) : String :=
  m.folder

/-- `AugmentationMethod.get_bias_ratio` (lines 67-68). -/
def AugmentationMethod.get_bias_ratio (m : AugmentationMethodState) : ℚ :=
  m.bias_ratio

/-- `AugmentationMethod.get_map_ratio` (lines 70-71): `self.map_ratio[class_target]`;
`none` models the `KeyError` on a missing key. -/
def AugmentationMethod.get_map_ratio (m : AugmentationMethodState)
    (class_target : Int) : Option ℚ :=
  m.map_ratio.lookup class_target

/-- A detection (`FusedInstances` object): per the module docstring, it has its
feature vector as a data member. -/
structure FusedInstance where
  feature : List ℚ
  deriving DecidableEq

/-- A tracklet (`Track` object): per the module docstring, it has the array of
the feature vectors of all previously matched detections as a data member. -/
structure Track where
  features : List (List ℚ)
  deriving DecidableEq

/-- `DoNotAugment.setup_map_ratio` (lines 135-136): returns the supplied
threshold table unchanged. -/
def DoNotAugment.setup_map_ratio (eagermot_thresholds : ThresholdDict) :
    ThresholdDict :=
  eagermot_thresholds

/-- `DoNotAugment.__init__` (lines 132-133): `super().__init__('DoNotAugment',
True, eagermot_thresholds)`. Since `automatic_init` is `True`, no console input
is read; the empty console stream stands for the unused prompts. -/
def DoNotAugment.init (eagermot_thresholds : ThresholdDict)
    (ds : DefaultSettings) : Option AugmentationMethodState :=
  AugmentationMethod.init "DoNotAugment" true eagermot_thresholds
    DoNotAugment.setup_map_ratio ds "" [] { savechoice := "", userpaths := [], bias_inputs := [] }

/-- `DoNotAugment.get_name` (lines 144-145): returns the boolean `False`. -/
def DoNotAugment.get_name (_m : AugmentationMethodState) : NameResult :=
  NameResult.bool false

/-- `DoNotAugment.get_features` (lines 147-148): the body is `pass`, so the
call returns Python `None` for every input, modelled as `Option.none` at the
type a genuine feature-pair result would have. -/
def DoNotAugment.get_features (_m : AugmentationMethodState)
    (_detected_instances : List FusedInstance) (_tracks : List Track) :
    Option (List (List ℚ) × List (List (List ℚ))) :=
  none

/-- `DoNotAugment.evaluate_score` (lines 150-151): the body is `pass`, so the
call returns Python `None` for every pair of elements, modelled as
`Option.none` at the type a genuine score would have. -/
def DoNotAugment.evaluate_score (_m : AugmentationMethodState)
    (_element_0 _element_1 : List ℚ) : Option ℚ :=
  none

/-- A JSON value as written by `json.dump` here: only `null` and objects occur. -/
inductive JsonValue where
  | null
  | obj (members : List (String × JsonValue))

/-- `os.path.join(a, b)` for the non-absolute second arguments used here. -/
def os_path_join (a b : String) : String :=
  if a = "" then b
  else if a.endsWith "/" then a ++ b
  else a ++ "/" ++ b

/-- One file written to disk: its path and the JSON value dumped into it. -/
structure FileWrite where
  file : String
  content : JsonValue

/-- `DoNotAugment.save_augmentation_parameters` (lines 138-142): writes the
dict `{"None": None}` as JSON to `save_path/No_augmentation_used.json`. The
result is the list of files written by the call. -/
def DoNotAugment.save_augmentation_parameters (save_path : String) :
    List FileWrite :=
  let params_to_write : List (String × JsonValue) := [("None", JsonValue.null)]
  let params_file := os_path_join save_path "No_augmentation_used.json"
  [{ file := params_file, content := JsonValue.obj params_to_write }]

/-- Modelled from the spec: `augmentation/visual_similarity_2d.py` is not part
of the provided source. Spec §6 fixes `setup_map_ratio(thresholds)` to a
"per-class mapping of blend ratios, derived from externally supplied per-class
threshold mapping"; the derivation formula is unspecified, modelled as the
identity on the threshold table. -/
def VisualSimilarity2D.setup_map_ratio (eagermot_thresholds : ThresholdDict) :
    ThresholdDict :=
  eagermot_thresholds

/-- Modelled from the spec: `get_features` of the missing module
`augmentation/visual_similarity_2d.py`. Spec §6 requires two sequences aligned
to the inputs ("equal-length outputs aligned to inputs"); per the module
docstring the detection holds its feature vector and the track its array of
feature vectors, so the method is modelled as extracting those members. -/
def VisualSimilarity2D.get_features (detected_instances : List FusedInstance)
    (tracks : List Track) : List (List ℚ) × List (List (List ℚ)) :=
  (detected_instances.map FusedInstance.feature, tracks.map Track.features)

/-- Modelled from the spec: `evaluate_score` of the missing module
`augmentation/visual_similarity_2d.py`. Spec §6 fixes only the codomain:
a score in `[0,1] ∪ {-1}`, 0 = perfect match, 1 = no similarity, -1 = skip.
Modelled as a clamped coordinatewise dissimilarity that skips (returns -1)
when either feature vector is empty. -/
def VisualSimilarity2D.evaluate_score (element_0 element_1 : List ℚ) : ℚ :=
  if element_0 = [] ∨ element_1 = [] then -1
  else min 1 (((element_0.zip element_1).map (fun p => |p.1 - p.2|)).sum)

/-- Modelled from the spec: `create_child_object(name, automatic_init,
eagermot_thresholds)` of the missing module
`augmentation/visual_similarity_2d.py`. Per the module docstring of the file
under verification it "returns an instance of the child class", so it is
modelled as running the shared `AugmentationMethod` initializer with the
child's `setup_map_ratio`. -/
def VisualSimilarity2D.create_child_object (name : String)
    (automatic_init : Bool) (eagermot_thresholds : ThresholdDict)
    (ds : DefaultSettings) (MOUNT_PATH : String) (fs : List String)
    (con : Console) : Option AugmentationMethodState :=
  AugmentationMethod.init name automatic_init eagermot_thresholds
    VisualSimilarity2D.setup_map_ratio ds MOUNT_PATH fs con

/-- What a call of `create_child_class_object` does:
* `ok m` — an instance was constructed (`none` inside means the interactive
  prompts never returned);
* `unboundLocalError v` — the final `return create_child_object(...)` was
  reached with the local name `v` never bound, raising Python's
  `UnboundLocalError` (a `NameError`). -/
inductive FactoryResult where
  | ok (m : Option AugmentationMethodState)
  | unboundLocalError (v : String)
  deriving DecidableEq

/-- `create_child_class_object` (lines 177-180): when `method_identifier` is
`"vis_sim_2d"` the constructor is imported and called; for any other
identifier the `if` is skipped, no constructor is bound, and the call of the
unbound local `create_child_object` raises `UnboundLocalError`. -/
def create_child_class_object (method_identifier name : String)
    (automatic_init : Bool) (eagermot_thresholds : ThresholdDict)
    (ds : DefaultSettings) (MOUNT_PATH : String) (fs : List String)
    (con : Console) : FactoryResult :=
  if method_identifier = "vis_sim_2d" then
    FactoryResult.ok (VisualSimilarity2D.create_child_object name automatic_init
      eagermot_thresholds ds MOUNT_PATH fs con)
  else
    FactoryResult.unboundLocalError "create_child_object"

/-- The spec codomain of `evaluate_score`: an actually returned number lying in
`[0,1] ∪ {-1}`. A Python `None` (`Option.none`) satisfies this for no number. -/
def score_in_range (r : Option ℚ) : Prop :=
  ∃ q, r = some q ∧ ((0 ≤ q ∧ q ≤ 1) ∨ q = -1)

/-- The spec contract of `get_features`: an actually returned pair of sequences
whose lengths match the two inputs. A Python `None` satisfies this for no pair. -/
def features_align (detected_instances : List FusedInstance) (tracks : List Track)
    (r : Option (List (List ℚ) × List (List (List ℚ)))) : Prop :=
  ∃ p, r = some p ∧ p.1.length = detected_instances.length ∧
    p.2.length = tracks.length

/-! ## Helper lemmas -/

theorem get_bias_ratio_input_cons_num_valid {q : ℚ} (rest : List NumInput)
    (hq : 0 ≤ q ∧ q ≤ 1) :
    get_bias_ratio_input (NumInput.num q :: rest) = ([], some q) := by
  simp only [get_bias_ratio_input, if_pos hq]

theorem get_bias_ratio_input_cons_num_invalid {q : ℚ} (rest : List NumInput)
    (hq : ¬(0 ≤ q ∧ q ≤ 1)) :
    get_bias_ratio_input (NumInput.num q :: rest) =
      ("Bias ratio outside of permitted range" :: (get_bias_ratio_input rest).1,
        (get_bias_ratio_input rest).2) := by
  simp only [get_bias_ratio_input, if_neg hq]

theorem get_bias_ratio_input_range (inputs : List NumInput) :
    ∀ b : ℚ, (get_bias_ratio_input inputs).2 = some b → 0 ≤ b ∧ b ≤ 1 := by
  induction inputs with
  | nil => intro b h; exact Option.noConfusion h
  | cons i rest ih =>
      intro b h
      cases i with
      | num q =>
          by_cases hq : 0 ≤ q ∧ q ≤ 1
          · rw [get_bias_ratio_input_cons_num_valid rest hq] at h
            exact (Option.some.inj h) ▸ hq
          · rw [get_bias_ratio_input_cons_num_invalid rest hq] at h
            exact ih b h
      | nonfinite => exact ih b h
      | malformed => exact ih b h

/-! ## Claim theorems -/

/-- C1: calling `create_child_class_object` with any identifier other than
`"vis_sim_2d"` does NOT raise a declared configuration error: the `if` is
skipped, no constructor is bound, and the final call raises Python's
`UnboundLocalError` for the unbound name `create_child_object`. This theorem
evaluates the code on every unregistered identifier, exhibiting the
divergence from the claim. -/
theorem claim_C1_factory_unbound_name (method_identifier name : String)
    (automatic_init : Bool) (eagermot_thresholds : ThresholdDict)
    (ds : DefaultSettings) (MOUNT_PATH : String) (fs : List String)
    (con : Console) (h : method_identifier ≠ "vis_sim_2d") :
    create_child_class_object method_identifier name automatic_init
        eagermot_thresholds ds MOUNT_PATH fs con =
      FactoryResult.unboundLocalError "create_child_object" := by
  simp [create_child_class_object, h]

/-- Witness for C1 at the concrete unregistered identifier `"foo"`. -/
theorem claim_C1_factory_unbound_name_witness :
    create_child_class_object "foo" "VisualSim2D" true []
        { folder := "f", bias_ratio := 1/2 } "" []
        { savechoice := "", userpaths := [], bias_inputs := [] } =
      FactoryResult.unboundLocalError "create_child_object" :=
  claim_C1_factory_unbound_name "foo" "VisualSim2D" true []
    { folder := "f", bias_ratio := 1/2 } "" []
    { savechoice := "", userpaths := [], bias_inputs := [] } (by decide)

/-- C2: after a successful construction — automatic (`automatic_init = true`,
value from `default_settings`, whose bias ratio the spec fixes to lie in
`[0,1]`) or interactive (value from the validated prompt) — `get_bias_ratio`
returns a value in `[0, 1]`. -/
theorem claim_C2_bias_ratio_in_unit_interval (method_name : String)
    (automatic_init : Bool) (eagermot_thresholds : ThresholdDict)
    (setup_map_ratio : ThresholdDict → ThresholdDict) (ds : DefaultSettings)
    (MOUNT_PATH : String) (fs : List String) (con : Console)
    (m : AugmentationMethodState)
    (hds : 0 ≤ ds.bias_ratio ∧ ds.bias_ratio ≤ 1)
    (hm : AugmentationMethod.init method_name automatic_init
        eagermot_thresholds setup_map_ratio ds MOUNT_PATH fs con = some m) :
    0 ≤ AugmentationMethod.get_bias_ratio m ∧
      AugmentationMethod.get_bias_ratio m ≤ 1 := by
  cases automatic_init with
  | true =>
      simp only [AugmentationMethod.init, if_true, Option.some.injEq] at hm
      rw [AugmentationMethod.get_bias_ratio, ← hm]
      exact hds
  | false =>
      simp only [AugmentationMethod.init, Bool.false_eq_true, if_false] at hm
      cases hfold : (get_source_folder_address MOUNT_PATH method_name fs
          con.savechoice con.userpaths).2 with
      | none => rw [hfold] at hm; exact Option.noConfusion hm
      | some folder =>
          rw [hfold] at hm
          cases hbias : (get_bias_ratio_input con.bias_inputs).2 with
          | none => rw [hbias] at hm; exact Option.noConfusion hm
          | some bias =>
              rw [hbias] at hm
              simp only [Option.some.injEq] at hm
              rw [AugmentationMethod.get_bias_ratio, ← hm]
              exact get_bias_ratio_input_range con.bias_inputs bias hbias

/-- Witness for C2: an automatic construction with default bias ratio 1/2. -/
theorem claim_C2_bias_ratio_witness :
    0 ≤ AugmentationMethod.get_bias_ratio
        { name := "DoNotAugment", map_ratio := [], folder := "f",
          bias_ratio := 1/2 } ∧
      AugmentationMethod.get_bias_ratio
        { name := "DoNotAugment", map_ratio := [], folder := "f",
          bias_ratio := 1/2 } ≤ 1 :=
  claim_C2_bias_ratio_in_unit_interval "DoNotAugment" true [] id
    { folder := "f", bias_ratio := 1/2 } "" []
    { savechoice := "", userpaths := [], bias_inputs := [] } _
    (by norm_num) rfl

/-- C5: on a `DoNotAugment` instance, `get_features` and `evaluate_score`
return Python `None` for every input and have no other effect. -/
theorem claim_C5_do_not_augment_noop :
    ∀ (m : AugmentationMethodState) (detected_instances : List FusedInstance)
      (tracks : List Track) (element_0 element_1 : List ℚ),
      DoNotAugment.get_features m detected_instances tracks = none ∧
      DoNotAugment.evaluate_score m element_0 element_1 = none :=
  fun _ _ _ _ _ => ⟨rfl, rfl⟩

/-- C6: for every path, `DoNotAugment.save_augmentation_parameters` writes
exactly one file, named `No_augmentation_used.json` under the path, whose
content is exactly the JSON object with the single member "None": null. -/
theorem claim_C6_save_parameters_single_file (save_path : String) :
    (DoNotAugment.save_augmentation_parameters save_path).length = 1 ∧
    ∀ w ∈ DoNotAugment.save_augmentation_parameters save_path,
      w.file = os_path_join save_path "No_augmentation_used.json" ∧
      w.content = JsonValue.obj [("None", JsonValue.null)] := by
  refine ⟨rfl, ?_⟩
  intro w hw
  rw [List.mem_singleton.mp hw]
  exact ⟨rfl, rfl⟩

/-- Witness for C6 at the concrete path `"results"`. -/
theorem claim_C6_save_parameters_witness :
    ({ file := os_path_join "results" "No_augmentation_used.json",
       content := JsonValue.obj [("None", JsonValue.null)] } : FileWrite).file =
        os_path_join "results" "No_augmentation_used.json" ∧
    ({ file := os_path_join "results" "No_augmentation_used.json",
       content := JsonValue.obj [("None", JsonValue.null)] } : FileWrite).content =
        JsonValue.obj [("None", JsonValue.null)] :=
  (claim_C6_save_parameters_single_file "results").2 _ (List.mem_singleton.mpr rfl)

/-- C9: the base accessor `get_name` returns the name string of the instance;
on a constructed `DoNotAugment` instance the overriding `get_name` returns the
boolean `False`, although the instance's `name` attribute is the string
"DoNotAugment". -/
theorem claim_C9_get_name_accessor :
    (∀ m : AugmentationMethodState,
        AugmentationMethod.get_name m = NameResult.str m.name) ∧
    (∀ (eagermot_thresholds : ThresholdDict) (ds : DefaultSettings)
        (m : AugmentationMethodState),
        DoNotAugment.init eagermot_thresholds ds = some m →
          DoNotAugment.get_name m = NameResult.bool false ∧
          m.name = "DoNotAugment") := by
  refine ⟨fun _ => rfl, fun thr ds m hm => ⟨rfl, ?_⟩⟩
  simp only [DoNotAugment.init, AugmentationMethod.init, if_true,
    Option.some.injEq] at hm
  rw [← hm]

/-- Witness for C9 on a concrete `DoNotAugment` construction. -/
theorem claim_C9_get_name_witness :
    DoNotAugment.get_name
        { name := "DoNotAugment", map_ratio := [], folder := "f",
          bias_ratio := 1/2 } = NameResult.bool false ∧
    ({ name := "DoNotAugment", map_ratio := [], folder := "f",
       bias_ratio := 1/2 } : AugmentationMethodState).name = "DoNotAugment" :=
  claim_C9_get_name_accessor.2 [] { folder := "f", bias_ratio := 1/2 } _ rfl

/-- C10: `DoNotAugment.setup_map_ratio` is the identity on the supplied
threshold table, so on a constructed `DoNotAugment` instance `get_map_ratio c`
returns exactly the original threshold stored under the class key `c`. -/
theorem claim_C10_map_ratio_identity (eagermot_thresholds : ThresholdDict)
    (ds : DefaultSettings) (c : Int) (v : ℚ) (m : AugmentationMethodState)
    (hm : DoNotAugment.init eagermot_thresholds ds = some m)
    (hc : eagermot_thresholds.lookup c = some v) :
    DoNotAugment.setup_map_ratio eagermot_thresholds = eagermot_thresholds ∧
    AugmentationMethod.get_map_ratio m c = some v := by
  refine ⟨rfl, ?_⟩
  simp only [DoNotAugment.init, AugmentationMethod.init, if_true,
    Option.some.injEq] at hm
  rw [AugmentationMethod.get_map_ratio, ← hm]
  exact hc

/-- Witness for C10 on the concrete table `[(1, 3/10)]` at key `1`. -/
theorem claim_C10_map_ratio_witness :
    DoNotAugment.setup_map_ratio [((1 : Int), (3 : ℚ)/10)] =
        [((1 : Int), (3 : ℚ)/10)] ∧
    AugmentationMethod.get_map_ratio
        { name := "DoNotAugment", map_ratio := [((1 : Int), (3 : ℚ)/10)],
          folder := "f", bias_ratio := 1/2 } 1 = some (3/10) :=
  claim_C10_map_ratio_identity [((1 : Int), (3 : ℚ)/10)]
    { folder := "f", bias_ratio := 1/2 } 1 (3/10) _ rfl rfl

/-- C3 counterexample: on a `DoNotAugment` instance (a concrete subclass,
constructed from the empty threshold table), `evaluate_score` at the concrete
pair `([0], [0])` returns Python `None`, which is not a value in
`[0,1] ∪ {-1}` — refuting the claim as stated. -/
theorem claim_C3_score_range_counterexample :
    DoNotAugment.init [] { folder := "f", bias_ratio := 1/2 } =
      some { name := "DoNotAugment", map_ratio := [], folder := "f",
             bias_ratio := 1/2 } ∧
    ¬ score_in_range
        (DoNotAugment.evaluate_score
          { name := "DoNotAugment", map_ratio := [], folder := "f",
            bias_ratio := 1/2 } [0] [0]) := by
  refine ⟨rfl, ?_⟩
  rintro ⟨q, hq, -⟩
  exact Option.noConfusion hq

/-- C3 (amended): `evaluate_score` of the concrete subclass `DoNotAugment`
returns Python `None` (not a value in `[0,1] ∪ {-1}`) for every pair, while
`evaluate_score` of the other concrete subclass (visual similarity, modelled
from the spec since its module is not in the provided source) always returns a
value in `[0,1] ∪ {-1}`. -/
theorem claim_C3_score_range_amended :
    (∀ (m : AugmentationMethodState) (element_0 element_1 : List ℚ),
        DoNotAugment.evaluate_score m element_0 element_1 = none) ∧
    (∀ element_0 element_1 : List ℚ,
        (0 ≤ VisualSimilarity2D.evaluate_score element_0 element_1 ∧
          VisualSimilarity2D.evaluate_score element_0 element_1 ≤ 1) ∨
        VisualSimilarity2D.evaluate_score element_0 element_1 = -1) := by
  refine ⟨fun _ _ _ => rfl, fun e0 e1 => ?_⟩
  by_cases h : e0 = [] ∨ e1 = []
  · right
    simp only [VisualSimilarity2D.evaluate_score, if_pos h]
  · left
    simp only [VisualSimilarity2D.evaluate_score, if_neg h]
    refine ⟨le_min (by norm_num) ?_, min_le_left _ _⟩
    apply List.sum_nonneg
    intro x hx
    obtain ⟨p, -, rfl⟩ := List.mem_map.mp hx
    exact abs_nonneg _

/-- C4 counterexample: on a `DoNotAugment` instance (a concrete subclass,
constructed from the empty threshold table), `get_features` at a concrete
one-detection, one-track input returns Python `None` instead of a pair of
sequences of the input lengths — refuting the claim as stated. -/
theorem claim_C4_features_lengths_counterexample :
    DoNotAugment.init [] { folder := "f", bias_ratio := 1/2 } =
      some { name := "DoNotAugment", map_ratio := [], folder := "f",
             bias_ratio := 1/2 } ∧
    ¬ features_align [{ feature := [0] }] [{ features := [] }]
        (DoNotAugment.get_features
          { name := "DoNotAugment", map_ratio := [], folder := "f",
            bias_ratio := 1/2 } [{ feature := [0] }] [{ features := [] }]) := by
  refine ⟨rfl, ?_⟩
  rintro ⟨p, hp, -⟩
  exact Option.noConfusion hp

/-- C4 (amended): `get_features` of the concrete subclass `DoNotAugment`
returns Python `None` (no sequences at all) for every input, while
`get_features` of the other concrete subclass (visual similarity, modelled
from the spec since its module is not in the provided source) returns two
sequences whose lengths equal the detections and tracks inputs respectively. -/
theorem claim_C4_features_lengths_amended :
    (∀ (m : AugmentationMethodState) (detected_instances : List FusedInstance)
        (tracks : List Track),
        DoNotAugment.get_features m detected_instances tracks = none) ∧
    (∀ (detected_instances : List FusedInstance) (tracks : List Track),
        (VisualSimilarity2D.get_features detected_instances tracks).1.length =
          detected_instances.length ∧
        (VisualSimilarity2D.get_features detected_instances tracks).2.length =
          tracks.length) := by
  refine ⟨fun _ _ _ => rfl, fun d t => ⟨?_, ?_⟩⟩ <;>
    simp [VisualSimilarity2D.get_features]

/-- C7: in `get_bias_ratio_input`, every input that fails to parse as a float
and every parsed value outside `[0,1]` produces one retry prompt (the printed
messages are as many as the failing inputs before the first valid one); the
function returns only when an input parses to a value in `[0,1]`, and it
returns exactly that first valid value; if no input is valid it never
returns. -/
theorem claim_C7_bias_prompt_retries (inputs : List NumInput) :
    (∀ b : ℚ, (get_bias_ratio_input inputs).2 = some b →
        (0 ≤ b ∧ b ≤ 1) ∧
        (get_bias_ratio_input inputs).1.length =
          (inputs.takeWhile fun i => ! validBias i).length ∧
        inputs[(inputs.takeWhile fun i => ! validBias i).length]? =
          some (NumInput.num b)) ∧
    ((get_bias_ratio_input inputs).2 = none →
        ∀ i ∈ inputs, validBias i = false) := by
  induction inputs with
  | nil =>
      exact ⟨fun b h => Option.noConfusion h,
        fun _ i hi => absurd hi (List.not_mem_nil i)⟩
  | cons i rest ih =>
      cases i with
      | num q =>
          by_cases hq : 0 ≤ q ∧ q ≤ 1
          · rw [get_bias_ratio_input_cons_num_valid rest hq]
            have hv : validBias (NumInput.num q) = true := by
              simp [validBias, hq]
            constructor
            · intro b h
              obtain rfl : q = b := Option.some.inj h
              refine ⟨hq, ?_, ?_⟩ <;> simp [List.takeWhile_cons, hv]
            · intro h; exact Option.noConfusion h
          · rw [get_bias_ratio_input_cons_num_invalid rest hq]
            have hv : validBias (NumInput.num q) = false := by
              simp only [validBias, decide_eq_false_iff_not]; exact hq
            constructor
            · intro b h
              obtain ⟨h1, h2, h3⟩ := ih.1 b h
              refine ⟨h1, ?_, ?_⟩ <;>
                simp [List.takeWhile_cons, hv, h2, h3]
            · intro h i hi
              rcases List.mem_cons.mp hi with rfl | hi'
              · exact hv
              · exact ih.2 h i hi'
      | nonfinite =>
          have hv : validBias NumInput.nonfinite = false := rfl
          constructor
          · intro b h
            obtain ⟨h1, h2, h3⟩ := ih.1 b h
            refine ⟨h1, ?_, ?_⟩ <;>
              simp [get_bias_ratio_input, List.takeWhile_cons, hv, h2, h3]
          · intro h i hi
            rcases List.mem_cons.mp hi with rfl | hi'
            · exact hv
            · exact ih.2 h i hi'
      | malformed =>
          have hv : validBias NumInput.malformed = false := rfl
          constructor
          · intro b h
            obtain ⟨h1, h2, h3⟩ := ih.1 b h
            refine ⟨h1, ?_, ?_⟩ <;>
              simp [get_bias_ratio_input, List.takeWhile_cons, hv, h2, h3]
          · intro h i hi
            rcases List.mem_cons.mp hi with rfl | hi'
            · exact hv
            · exact ih.2 h i hi'

/-- Witness for C7: one parse failure, one out-of-range value, then the valid
value 1, which is returned after two retries. -/
theorem claim_C7_bias_prompt_witness :
    (0 ≤ (1 : ℚ) ∧ (1 : ℚ) ≤ 1) ∧
    (get_bias_ratio_input
        [NumInput.malformed, NumInput.num 2, NumInput.num 1]).1.length =
      ([NumInput.malformed, NumInput.num 2, NumInput.num 1].takeWhile
          fun i => ! validBias i).length ∧
    [NumInput.malformed, NumInput.num 2,
        NumInput.num 1][([NumInput.malformed, NumInput.num 2,
        NumInput.num 1].takeWhile fun i => ! validBias i).length]? =
      some (NumInput.num 1) :=
  (claim_C7_bias_prompt_retries
      [NumInput.malformed, NumInput.num 2, NumInput.num 1]).1 1
    (by norm_num [get_bias_ratio_input])

/-- The retry loop of the folder prompt: an accepted path exists on the
filesystem and is `MOUNT_PATH` plus an entered path; every entered
non-existent path before it produced one error message; if no entered path
exists the loop never returns. -/
theorem folderRetryLoop_retries (MOUNT_PATH : String) (fs : List String)
    (userpaths : List String) :
    (∀ p : String, (folderRetryLoop MOUNT_PATH fs userpaths).2 = some p →
        fs.contains p = true ∧ (∃ u ∈ userpaths, p = MOUNT_PATH ++ u) ∧
        (folderRetryLoop MOUNT_PATH fs userpaths).1.length =
          (userpaths.takeWhile fun u => ! fs.contains (MOUNT_PATH ++ u)).length) ∧
    ((folderRetryLoop MOUNT_PATH fs userpaths).2 = none →
        ∀ u ∈ userpaths, fs.contains (MOUNT_PATH ++ u) = false) := by
  induction userpaths with
  | nil =>
      exact ⟨fun p h => Option.noConfusion h,
        fun _ u hu => absurd hu (List.not_mem_nil u)⟩
  | cons u rest ih =>
      by_cases hc : fs.contains (MOUNT_PATH ++ u) = true
      · constructor
        · intro p h
          simp only [folderRetryLoop, if_pos hc] at h
          obtain rfl : MOUNT_PATH ++ u = p := Option.some.inj h
          refine ⟨hc, ⟨u, List.mem_cons_self u rest, rfl⟩, ?_⟩
          have hm : MOUNT_PATH ++ u ∈ fs := by simpa using hc
          simp [folderRetryLoop, List.takeWhile_cons, hm]
        · intro h
          simp only [folderRetryLoop, if_pos hc] at h
          exact Option.noConfusion h
      · have hc' : fs.contains (MOUNT_PATH ++ u) = false :=
          Bool.eq_false_iff.mpr hc
        constructor
        · intro p h
          simp only [folderRetryLoop, if_neg hc] at h
          obtain ⟨h1, ⟨u', hu', h2⟩, h3⟩ := ih.1 p h
          refine ⟨h1, ⟨u', List.mem_cons_of_mem u hu', h2⟩, ?_⟩
          have hm : MOUNT_PATH ++ u ∉ fs := by simpa using hc'
          simp [folderRetryLoop, List.takeWhile_cons, hm, h3]
        · intro h u' hu'
          simp only [folderRetryLoop, if_neg hc] at h
          rcases List.mem_cons.mp hu' with rfl | hu''
          · exact hc'
          · exact ih.2 h u' hu''

/-- C8: when the user declines the default folder, the prompt loop accepts
only an existing path (each non-existent entry produces one retry message,
and the accepted path is `MOUNT_PATH` plus an entered path and exists on the
filesystem); when the user accepts the default, the default path is returned
with no existence check on any filesystem. -/
theorem claim_C8_folder_prompt_retries (MOUNT_PATH name : String)
    (fs : List String) (savechoice : String) (userpaths : List String) :
    (folderYesChoices.contains savechoice = false →
      (∀ p : String,
          (get_source_folder_address MOUNT_PATH name fs savechoice
              userpaths).2 = some p →
          fs.contains p = true ∧ (∃ u ∈ userpaths, p = MOUNT_PATH ++ u) ∧
          (get_source_folder_address MOUNT_PATH name fs savechoice
              userpaths).1.length =
            (userpaths.takeWhile fun u =>
              ! fs.contains (MOUNT_PATH ++ u)).length) ∧
      ((get_source_folder_address MOUNT_PATH name fs savechoice
          userpaths).2 = none →
          ∀ u ∈ userpaths, fs.contains (MOUNT_PATH ++ u) = false)) ∧
    (folderYesChoices.contains savechoice = true →
      get_source_folder_address MOUNT_PATH name fs savechoice userpaths =
        ([], some (default_path MOUNT_PATH name))) := by
  constructor
  · intro hno
    simp only [get_source_folder_address, hno, Bool.false_eq_true, if_false]
    exact folderRetryLoop_retries MOUNT_PATH fs userpaths
  · intro hyes
    simp only [get_source_folder_address, hyes, if_true]

/-- Witness for C8: the user declines the default with "n"; the first entered
path does not exist and retries, the second exists and is returned. -/
theorem claim_C8_folder_prompt_witness :
    (["/mnt/data"] : List String).contains "/mnt/data" = true ∧
    (∃ u ∈ ["/bad", "/data"], "/mnt/data" = "/mnt" ++ u) ∧
    (get_source_folder_address "/mnt" "VisualSim2D" ["/mnt/data"] "n"
        ["/bad", "/data"]).1.length =
      (["/bad", "/data"].takeWhile fun u =>
        ! (["/mnt/data"] : List String).contains ("/mnt" ++ u)).length :=
  ((claim_C8_folder_prompt_retries "/mnt" "VisualSim2D" ["/mnt/data"] "n"
      ["/bad", "/data"]).1 (by decide)).1 "/mnt/data" (by decide)

end AugmentationBase
